import Mathlib

/-!
Verification of the external UI plugin component resolution layer of the
magda web client (`src/magda-web-client/src/externalPluginComponents.ts`).

The executable logic of that module is embedded shallowly below:

* JavaScript runtime values that can appear in the global plugin registry
  are modelled by the inductive type `JSValue`;
* `ReactIs.isValidElementType` is an external library predicate, modelled
  as an arbitrary boolean oracle `hostCheck : JSValue → Bool` that every
  definition is parametrised over;
* the `withRouter(connect(...)(c))` decoration and the
  `wrapComponentWithProps` higher-order component are modelled by the
  constructors of `RComp`, and the render-time behaviour of the wrapper
  closure is modelled by `renderRComp`;
* the browser `window` global object is modelled as an association list
  of global names to values.
-/

/-- A JavaScript runtime value, as relevant to the plugin registry:
`vNull` covers both `null` and `undefined`; `vComp` is a function/class
component (an opaque renderable identified by a numeric id); `vObj` is a
plain object given by its own enumerable fields in insertion order;
`vArr` is an array. -/
inductive JSValue where
  | vNull : JSValue
  | vStr : String → JSValue
  | vNum : Int → JSValue
  | vBool : Bool → JSValue
  | vComp : Nat → JSValue
  | vObj : List (String × JSValue) → JSValue
  | vArr : List JSValue → JSValue

/-- An object field list / the global `window` object: keys to values in
insertion order. -/
abbrev Obj := List (String × JSValue)

/-- First-match association-list lookup (JavaScript property access on an
object literal, whose keys are unique). -/
def lookupStr : String → Obj → Option JSValue
  | _, [] => none
  | k, (key, v) :: rest => if key = k then some v else lookupStr k rest

/-- JavaScript truthiness: `null`/`undefined`, `""`, `0` and `false` are
falsy; objects, arrays and components are truthy. -/
def truthy : JSValue → Bool
  | .vNull => false
  | .vStr s => !(s = "")
  | .vNum n => !(n = 0)
  | .vBool b => b
  | .vComp _ => true
  | .vObj _ => true
  | .vArr _ => true

/-- The test `typeof v === "string"`. -/
def isStringV : JSValue → Bool
  | .vStr _ => true
  | _ => false

/-- The test `typeof v === "object"` for the values that can reach the multi-slot
object check (the value is truthy there, so `null` never reaches it). -/
def typeofObject : JSValue → Bool
  | .vObj _ => true
  | .vArr _ => true
  | _ => false

/-- Property access `v[k]` (respectively `v?.[k]`): a missing key or a
non-object base yields `undefined` (`vNull`); array bases index by the
decimal value of the key. -/
def getField (v : JSValue) (k : String) : JSValue :=
  match v with
  | .vObj fs => (lookupStr k fs).getD .vNull
  | .vArr xs =>
    match k.toNat? with
    | some i => xs.getD i .vNull
    | none => .vNull
  | _ => .vNull

/-- The enumeration `Object.keys`: own enumerable keys in insertion order (array indices
for arrays). -/
def objKeys : JSValue → List String
  | .vObj fs => fs.map Prod.fst
  | .vArr xs => (List.range xs.length).map toString
  | _ => []

/-- Embeds `PREFIX = "MagdaPluginComponent"`, the global scope variable
name root to which plugin bundles export. -/
def PREFIX_STR : String := "MagdaPluginComponent"

/-- Reading the global `window?.[k]`: an unpopulated key is `undefined`. -/
def windowGet (w : Obj) (k : String) : JSValue :=
  (lookupStr k w).getD .vNull

/-- Embeds `isValidElementType` (lines 164-169): rejects every falsy value
and every string, then defers to `ReactIs.isValidElementType`, modelled by
the oracle `hostCheck`. -/
def isValidElementType (hostCheck : JSValue → Bool) (c : JSValue) : Bool :=
  if !truthy c || isStringV c then false
  else hostCheck c

/-- A resolved plugin component as produced by the resolvers:
`decorated c` embeds `withRouter(connect(mapStateToProps, mapDispatchToProps)(c))`
applied to the chosen raw value `c`; `wrapped inner ov` embeds the
function component returned by `wrapComponentWithProps(inner, ov)`. -/
inductive RComp where
  | decorated : JSValue → RComp
  | wrapped : RComp → Obj → RComp

/-- Whether a resolved component is a `wrapComponentWithProps` wrapper. -/
def isWrapped : RComp → Bool
  | .wrapped _ _ => true
  | .decorated _ => false

/-- Embeds `getComponentByRef` (lines 171-192): a falsy reference yields
`null`; otherwise a truthy and valid `default` field wins, else the
reference itself if valid, else `null`; the surviving value is decorated
with router and store bindings. -/
def getComponentByRef (hostCheck : JSValue → Bool) (componentRef : JSValue) :
    Option RComp :=
  if !truthy componentRef then none
  else
    let d := getField componentRef "default"
    let component :=
      if truthy d && isValidElementType hostCheck d then d
      else if isValidElementType hostCheck componentRef then componentRef
      else JSValue.vNull
    if !truthy component then none
    else some (RComp.decorated component)

/-- Embeds the shared registry-entry read of `getComponent`
(lines 206-211) and `getMultipleComponents` (lines 235-239):
`entry?.default ? entry.default : entry ? entry : null` — a truthy
`default` field is unwrapped without validation. -/
def resolveEntry (entry : JSValue) : JSValue :=
  if truthy (getField entry "default") then getField entry "default"
  else if truthy entry then entry
  else JSValue.vNull

/-- Embeds `getComponent` (lines 202-214): reads
`window[PREFIX + name]`, pre-unwraps a truthy `default`, and materialises
through `getComponentByRef`. -/
def getComponent (hostCheck : JSValue → Bool) (w : Obj) (name : String) :
    Option RComp :=
  getComponentByRef hostCheck (resolveEntry (windowGet w (PREFIX_STR ++ name)))

/-- Embeds `wrapComponentWithProps` (lines 216-229): returns a new
function component closing over the wrapped component and the overwrite
props. -/
def wrapComponentWithProps (component : RComp) (overwriteProps : Obj) : RComp :=
  RComp.wrapped component overwriteProps

/-- JavaScript object spread `{...a, ...b}` for objects with unique keys:
keys of `a` in order with values overridden by `b` on collision, then the
keys of `b` not present in `a`, in order. -/
def spreadMerge (a b : Obj) : Obj :=
  a.map (fun p => (p.1, (lookupStr p.1 b).getD p.2)) ++
    b.filter (fun p => !(a.any (fun q => q.1 = p.1)))

/-- Removing one key from a props object
(`const { children, ...restProps } = props` keeps every other key). -/
def removeKey (o : Obj) (k : String) : Obj :=
  o.filter (fun p => !(p.1 = k))

/-- One invocation of `React.createElement(component, props, children)`
as observed by the host renderer. -/
structure RenderCall where
  comp : RComp
  props : Obj
  children : JSValue

/-- Render-time behaviour of a resolved component applied to caller
props. For a `wrapComponentWithProps` wrapper this is the closure body at
lines 219-228: split `children` off the caller props, spread the rest
then the overwrite props, and pass the children positionally. A bare
decorated component just receives the caller props. -/
def renderRComp : RComp → Obj → RenderCall
  | .decorated c, props =>
    { comp := RComp.decorated c, props := props, children := JSValue.vNull }
  | .wrapped inner ov, props =>
    { comp := inner
      props := spreadMerge (removeKey props "children") ov
      children := (lookupStr "children" props).getD JSValue.vNull }

/-- Embeds `getMultipleComponents` (lines 231-285) given the already
resolved exported value: falsy exported value yields `null`; a value that
materialises as a single component yields a singleton; a non-object
yields `null`; a keyless object yields `null`; otherwise each key's value
is materialised independently, failures are dropped, and every survivor
is wrapped with the full survivor-key list as `loadedPluginNames`. -/
def multiFromExported (hostCheck : JSValue → Bool) (exportedValue : JSValue) :
    Option (List RComp) :=
  if !truthy exportedValue then none
  else
    match getComponentByRef hostCheck exportedValue with
    | some c => some [c]
    | none =>
      if !typeofObject exportedValue then none
      else
        let keys := objKeys exportedValue
        if keys.length = 0 then none
        else
          let survivors := keys.filterMap (fun k =>
            (getComponentByRef hostCheck (getField exportedValue k)).map
              (fun c => (k, c)))
          let extraPluginNames := survivors.map (fun p => p.1)
          some (survivors.map (fun p =>
            wrapComponentWithProps p.2
              [("loadedPluginNames",
                JSValue.vArr (extraPluginNames.map JSValue.vStr))]))

/-- Embeds `getMultipleComponents` (lines 231-285) end to end: read the
registry entry, pre-unwrap a truthy `default`, then resolve the
single-or-many cases. -/
def getMultipleComponents (hostCheck : JSValue → Bool) (w : Obj)
    (name : String) : Option (List RComp) :=
  multiFromExported hostCheck (resolveEntry (windowGet w (PREFIX_STR ++ name)))

/-- A host check that accepts nothing: test fixture standing for a
rendering system that recognises none of the supplied values. -/
def hostCheckNever : JSValue → Bool := fun _ => false

/-- A host check that accepts exactly the function/class components:
the typical behaviour of the rendering system's element-type test on
plain plugin exports. -/
def hostCheckComp : JSValue → Bool
  | .vComp _ => true
  | _ => false

/-- A host check that accepts exactly the plain objects: stands for a
rendering system that recognises certain tagged objects (memo, lazy,
forward-ref wrappers) as element types. -/
def hostCheckObj : JSValue → Bool
  | .vObj _ => true
  | _ => false

/-! ### Basic facts about the validator and the materialiser -/

/-- The validator is the conjunction of truthiness, not being a string,
and the host rendering system's check. -/
lemma isValid_eq (hc : JSValue → Bool) (c : JSValue) :
    isValidElementType hc c = (truthy c && !isStringV c && hc c) := by
  unfold isValidElementType
  cases h1 : truthy c <;> cases h2 : isStringV c <;> simp

lemma truthy_of_isValid {hc : JSValue → Bool} {c : JSValue}
    (h : isValidElementType hc c = true) : truthy c = true := by
  rw [isValid_eq, Bool.and_eq_true, Bool.and_eq_true] at h
  exact h.1.1

lemma notString_of_isValid {hc : JSValue → Bool} {c : JSValue}
    (h : isValidElementType hc c = true) : isStringV c = false := by
  rw [isValid_eq, Bool.and_eq_true, Bool.and_eq_true] at h
  simpa using h.1.2

lemma hostCheck_of_isValid {hc : JSValue → Bool} {c : JSValue}
    (h : isValidElementType hc c = true) : hc c = true := by
  rw [isValid_eq, Bool.and_eq_true, Bool.and_eq_true] at h
  exact h.2

/-- Branch-form characterisation of `getComponentByRef`: falsy reference
→ nothing; truthy and valid `default` → decorated default; else valid
reference → decorated reference; else nothing. -/
lemma getComponentByRef_eq (hc : JSValue → Bool) (c : JSValue) :
    getComponentByRef hc c =
      if truthy c = false then none
      else if truthy (getField c "default") &&
          isValidElementType hc (getField c "default") then
        some (RComp.decorated (getField c "default"))
      else if isValidElementType hc c then some (RComp.decorated c)
      else none := by
  unfold getComponentByRef
  cases ht : truthy c
  · simp [ht]
  · cases h1 : (truthy (getField c "default") &&
        isValidElementType hc (getField c "default"))
    · cases h2 : isValidElementType hc c
      · simp only [ht, h1, h2, Bool.not_true, Bool.false_eq_true, if_false,
          Bool.not_false, if_true]
        norm_num [show truthy JSValue.vNull = false from rfl]
      · simp only [ht, h1, h2, Bool.not_true, Bool.false_eq_true, if_false,
          Bool.not_false, if_true]
        norm_num
    · have h1' := h1
      rw [Bool.and_eq_true] at h1'
      obtain ⟨htd, hvd⟩ := h1'
      simp only [ht, h1, htd, Bool.not_true, Bool.false_eq_true, if_false,
        Bool.not_false, if_true]
      simp [hvd, htd]

lemma truthy_of_getComponentByRef_some {hc : JSValue → Bool} {e : JSValue}
    {c : RComp} (h : getComponentByRef hc e = some c) : truthy e = true := by
  cases ht : truthy e
  · rw [getComponentByRef_eq, ht] at h
    simp at h
  · rfl

/-- Everything `getComponentByRef` produces is a bare decorated
component, never a `wrapComponentWithProps` wrapper. -/
lemma getComponentByRef_shape {hc : JSValue → Bool} {e : JSValue} {c : RComp}
    (h : getComponentByRef hc e = some c) : ∃ raw, c = RComp.decorated raw := by
  rw [getComponentByRef_eq] at h
  by_cases ht : truthy e = false
  · rw [if_pos ht] at h
    exact Option.noConfusion h
  · rw [if_neg ht] at h
    by_cases h1 : (truthy (getField e "default") &&
        isValidElementType hc (getField e "default")) = true
    · rw [if_pos h1] at h
      exact ⟨_, (Option.some.inj h).symm⟩
    · rw [if_neg h1] at h
      by_cases h2 : isValidElementType hc e = true
      · rw [if_pos h2] at h
        exact ⟨_, (Option.some.inj h).symm⟩
      · rw [if_neg h2] at h
        exact Option.noConfusion h

/-- A valid reference with no truthy `default` field materialises to
itself, decorated. -/
lemma getComponentByRef_of_valid (hc : JSValue → Bool) (c : JSValue)
    (h1 : isValidElementType hc c = true)
    (h2 : truthy (getField c "default") = false) :
    getComponentByRef hc c = some (RComp.decorated c) := by
  rw [getComponentByRef_eq, truthy_of_isValid h1, h2]
  simp [h1]

/-- An invalid reference with no truthy `default` field fails to
materialise. -/
lemma getComponentByRef_none_of_invalid (hc : JSValue → Bool) (c : JSValue)
    (h2 : truthy (getField c "default") = false)
    (h3 : isValidElementType hc c = false) :
    getComponentByRef hc c = none := by
  rw [getComponentByRef_eq, h2, h3]
  cases ht : truthy c <;> simp

/-- An exported value that materialises as one component makes the
multi-slot resolver return exactly that singleton. -/
lemma multiFromExported_single {hc : JSValue → Bool} {e : JSValue} {c : RComp}
    (h : getComponentByRef hc e = some c) :
    multiFromExported hc e = some [c] := by
  unfold multiFromExported
  rw [truthy_of_getComponentByRef_some h, h]
  simp

/-! ### Lookup lemmas over object field lists -/

lemma lookupStr_mem {k : String} {v : JSValue} :
    ∀ {fs : Obj}, lookupStr k fs = some v → (k, v) ∈ fs := by
  intro fs
  induction fs with
  | nil => intro h; exact Option.noConfusion h
  | cons p rest ih =>
    obtain ⟨key, w⟩ := p
    intro h
    by_cases hk : key = k
    · subst hk
      rw [lookupStr, if_pos rfl] at h
      rw [Option.some.inj h]
      exact List.mem_cons_self _ _
    · rw [lookupStr, if_neg hk] at h
      exact List.mem_cons_of_mem _ (ih h)

lemma exists_lookupStr_of_mem_keys {k : String} :
    ∀ {fs : Obj}, k ∈ fs.map Prod.fst → ∃ v, lookupStr k fs = some v := by
  intro fs
  induction fs with
  | nil => intro h; simp at h
  | cons p rest ih =>
    obtain ⟨key, w⟩ := p
    intro h
    by_cases hk : key = k
    · exact ⟨w, by rw [lookupStr, if_pos hk]⟩
    · have : k ∈ rest.map Prod.fst := by
        rcases List.mem_cons.mp h with h1 | h1
        · exact absurd h1.symm hk
        · exact h1
      obtain ⟨v, hv⟩ := ih this
      exact ⟨v, by rw [lookupStr, if_neg hk]; exact hv⟩

lemma lookupStr_append_some {k : String} {v : JSValue} {a : Obj} (b : Obj)
    (h : lookupStr k a = some v) : lookupStr k (a ++ b) = some v := by
  induction a with
  | nil => exact Option.noConfusion h
  | cons p rest ih =>
    obtain ⟨key, w⟩ := p
    by_cases hk : key = k
    · rw [lookupStr, if_pos hk] at h
      rw [List.cons_append, lookupStr, if_pos hk]
      exact h
    · rw [lookupStr, if_neg hk] at h
      rw [List.cons_append, lookupStr, if_neg hk]
      exact ih h

lemma lookupStr_append_none {k : String} {a : Obj} (b : Obj)
    (h : lookupStr k a = none) : lookupStr k (a ++ b) = lookupStr k b := by
  induction a with
  | nil => rfl
  | cons p rest ih =>
    obtain ⟨key, w⟩ := p
    by_cases hk : key = k
    · rw [lookupStr, if_pos hk] at h
      exact Option.noConfusion h
    · rw [lookupStr, if_neg hk] at h
      rw [List.cons_append, lookupStr, if_neg hk]
      exact ih h

lemma lookupStr_mapOverride (k : String) (a b : Obj) :
    lookupStr k (a.map (fun p => (p.1, (lookupStr p.1 b).getD p.2))) =
      (lookupStr k a).map (fun w => (lookupStr k b).getD w) := by
  induction a with
  | nil => rfl
  | cons p rest ih =>
    obtain ⟨key, w⟩ := p
    by_cases hk : key = k
    · subst hk
      rw [List.map_cons, lookupStr, lookupStr, if_pos rfl, if_pos rfl]
      rfl
    · rw [List.map_cons, lookupStr, lookupStr, if_neg hk, if_neg hk]
      exact ih

lemma lookupStr_filter_of_true {k : String} (f : String × JSValue → Bool)
    (hf : ∀ w, f (k, w) = true) :
    ∀ l : Obj, lookupStr k (l.filter f) = lookupStr k l := by
  intro l
  induction l with
  | nil => rfl
  | cons p rest ih =>
    obtain ⟨key, w⟩ := p
    by_cases hk : key = k
    · subst hk
      rw [List.filter_cons, hf w]
      simp only [if_true]
      rw [lookupStr, if_pos rfl, lookupStr, if_pos rfl]
    · rw [List.filter_cons]
      cases hfw : f (key, w)
      · simp only [Bool.false_eq_true, if_false]
        rw [ih, lookupStr, if_neg hk]
      · simp only [if_true]
        rw [lookupStr, if_neg hk, ih, lookupStr, if_neg hk]

lemma lookupStr_filter_of_false {k : String} (f : String × JSValue → Bool)
    (hf : ∀ w, f (k, w) = false) :
    ∀ l : Obj, lookupStr k (l.filter f) = none := by
  intro l
  induction l with
  | nil => rfl
  | cons p rest ih =>
    obtain ⟨key, w⟩ := p
    by_cases hk : key = k
    · subst hk
      rw [List.filter_cons, hf w]
      simp only [Bool.false_eq_true, if_false]
      exact ih
    · rw [List.filter_cons]
      cases hfw : f (key, w)
      · simp only [Bool.false_eq_true, if_false]
        exact ih
      · simp only [if_true]
        rw [lookupStr, if_neg hk]
        exact ih

lemma lookupStr_filter_none {k : String} {l : Obj} (f : String × JSValue → Bool)
    (h : lookupStr k l = none) : lookupStr k (l.filter f) = none := by
  induction l with
  | nil => rfl
  | cons p rest ih =>
    obtain ⟨key, w⟩ := p
    by_cases hk : key = k
    · rw [lookupStr, if_pos hk] at h
      exact Option.noConfusion h
    · rw [lookupStr, if_neg hk] at h
      rw [List.filter_cons]
      cases hfw : f (key, w)
      · simp only [Bool.false_eq_true, if_false]
        exact ih h
      · simp only [if_true]
        rw [lookupStr, if_neg hk]
        exact ih h

lemma any_key_false_of_lookupStr_none {k : String} {a : Obj}
    (h : lookupStr k a = none) :
    (a.any (fun q => q.1 = k)) = false := by
  induction a with
  | nil => rfl
  | cons p rest ih =>
    obtain ⟨key, w⟩ := p
    by_cases hk : key = k
    · rw [lookupStr, if_pos hk] at h
      exact Option.noConfusion h
    · rw [lookupStr, if_neg hk] at h
      simp only [List.any_cons, ih h, Bool.or_false]
      simpa using hk

/-- Object-hash branch of the multi-slot resolver: when the entry does not
materialise as a single component and has at least one key, each key's
value is materialised independently, failures are dropped, and every
survivor is wrapped with the full survivor-key list. The result is `some`
of the (possibly empty) survivor list. -/
lemma multiFromExported_objHash (hc : JSValue → Bool) (fs : List (String × JSValue))
    (hself : getComponentByRef hc (JSValue.vObj fs) = none)
    (hne : fs ≠ []) :
    multiFromExported hc (JSValue.vObj fs) =
      some (((fs.map Prod.fst).filterMap (fun k =>
          (getComponentByRef hc (getField (JSValue.vObj fs) k)).map
            (fun c => (k, c)))).map (fun p =>
        wrapComponentWithProps p.2
          [("loadedPluginNames", JSValue.vArr
            ((((fs.map Prod.fst).filterMap (fun k =>
                (getComponentByRef hc (getField (JSValue.vObj fs) k)).map
                  (fun c => (k, c)))).map (fun p => p.1)).map JSValue.vStr))])) := by
  unfold multiFromExported
  rw [hself]
  have hlen : ¬ (objKeys (JSValue.vObj fs)).length = 0 := by
    simp [objKeys, List.length_eq_zero, hne]
  simp only [show truthy (JSValue.vObj fs) = true from rfl, Bool.not_true,
    Bool.false_eq_true, if_false,
    show typeofObject (JSValue.vObj fs) = true from rfl]
  rw [if_neg hlen]
  rfl

/-! ### Claim theorems -/

/-- C7: for every host check oracle and every value `v`, the element
validator `isValidElementType` returns true only if `v` is truthy, not a
string, and accepted by the host rendering system's check; in particular
it returns false for every string and for `null`/`undefined`. -/
theorem c7_validator_contract (hc : JSValue → Bool) (v : JSValue) :
    (isValidElementType hc v = true →
      truthy v = true ∧ isStringV v = false ∧ hc v = true) ∧
    (isStringV v = true → isValidElementType hc v = false) ∧
    (v = JSValue.vNull → isValidElementType hc v = false) := by
  refine ⟨fun h => ⟨truthy_of_isValid h, notString_of_isValid h,
    hostCheck_of_isValid h⟩, fun hs => ?_, fun hn => ?_⟩
  · unfold isValidElementType
    rw [hs]
    simp
  · subst hn
    rfl

/-- C7 witness: the contract evaluated at a function component, at a
string and at `null`, with a host check accepting everything. -/
theorem c7_validator_contract_witness :
    (truthy (JSValue.vComp 0) = true ∧ isStringV (JSValue.vComp 0) = false ∧
      (fun _ => true) (JSValue.vComp 0) = true) ∧
    isValidElementType (fun _ => true) (JSValue.vStr "div") = false ∧
    isValidElementType (fun _ => true) JSValue.vNull = false :=
  ⟨(c7_validator_contract (fun _ => true) (JSValue.vComp 0)).1 rfl,
   (c7_validator_contract (fun _ => true) (JSValue.vStr "div")).2.1 rfl,
   (c7_validator_contract (fun _ => true) JSValue.vNull).2.2 rfl⟩

/-- C9: for every slot name whose registry key is not populated, both the
single-slot resolver and the multi-slot resolver return nothing. -/
theorem c9_absent_slot (hc : JSValue → Bool) (w : Obj) (name : String)
    (h : lookupStr (PREFIX_STR ++ name) w = none) :
    getComponent hc w name = none ∧ getMultipleComponents hc w name = none := by
  have hw : windowGet w (PREFIX_STR ++ name) = JSValue.vNull := by
    unfold windowGet
    rw [h]
    rfl
  constructor
  · unfold getComponent
    rw [hw]
    rfl
  · unfold getMultipleComponents
    rw [hw]
    rfl

/-- C9 witness: an empty registry resolves the `Header` slot to nothing
on both paths. -/
theorem c9_absent_slot_witness :
    getComponent hostCheckComp [] "Header" = none ∧
      getMultipleComponents hostCheckComp [] "Header" = none :=
  c9_absent_slot hostCheckComp [] "Header" rfl

/-- C4: a multi-slot registry entry that materialises as a single valid
candidate yields a one-element sequence whose member carries no
sibling-name wrapper. -/
theorem c4_single_candidate (hc : JSValue → Bool) (w : Obj) (name : String)
    (c : RComp)
    (h : getComponentByRef hc (resolveEntry (windowGet w (PREFIX_STR ++ name))) =
      some c) :
    getMultipleComponents hc w name = some [c] ∧ isWrapped c = false := by
  refine ⟨?_, ?_⟩
  · unfold getMultipleComponents
    exact multiFromExported_single h
  · obtain ⟨raw, rfl⟩ := getComponentByRef_shape h
    rfl

/-- C4 witness: a lone component exported directly at the
`ExtraVisualisationSection` scope resolves to a singleton with no
`loadedPluginNames` wrapper. -/
theorem c4_single_candidate_witness :
    getMultipleComponents hostCheckComp
        [("MagdaPluginComponentExtraVisualisationSection", JSValue.vComp 7)]
        "ExtraVisualisationSection" =
      some [RComp.decorated (JSValue.vComp 7)] ∧
    isWrapped (RComp.decorated (JSValue.vComp 7)) = false :=
  c4_single_candidate hostCheckComp
    [("MagdaPluginComponentExtraVisualisationSection", JSValue.vComp 7)]
    "ExtraVisualisationSection" (RComp.decorated (JSValue.vComp 7)) rfl

/-- C5: a multi-slot registry entry that is a non-object, non-renderable
value (a number, a non-empty string, ...) resolves to nothing. -/
theorem c5_malformed_container (hc : JSValue → Bool) (w : Obj) (name : String)
    (e : JSValue)
    (hw : windowGet w (PREFIX_STR ++ name) = e)
    (hobj : typeofObject e = false)
    (hval : isValidElementType hc e = false) :
    getMultipleComponents hc w name = none := by
  have hgf : getField e "default" = JSValue.vNull := by
    cases e with
    | vNull => rfl
    | vStr s => rfl
    | vNum n => rfl
    | vBool b => rfl
    | vComp i => rfl
    | vObj fs => exact absurd hobj (by simp [typeofObject])
    | vArr xs => exact absurd hobj (by simp [typeofObject])
  have hre : resolveEntry e = if truthy e then e else JSValue.vNull := by
    unfold resolveEntry
    rw [hgf]
    rfl
  have hnone : getComponentByRef hc e = none :=
    getComponentByRef_none_of_invalid hc e (by rw [hgf]; rfl) hval
  unfold getMultipleComponents
  rw [hw, hre]
  cases ht : truthy e
  · rfl
  · unfold multiFromExported
    rw [if_pos rfl]
    simp only [ht, Bool.not_true, Bool.false_eq_true, if_false, hnone, hobj]
    rfl

/-- C5 witness: a number registered at the multi-slot scope resolves to
nothing. -/
theorem c5_malformed_container_witness :
    getMultipleComponents hostCheckComp
      [("MagdaPluginComponentExtraVisualisationSection", JSValue.vNum 42)]
      "ExtraVisualisationSection" = none :=
  c5_malformed_container hostCheckComp
    [("MagdaPluginComponentExtraVisualisationSection", JSValue.vNum 42)]
    "ExtraVisualisationSection" (JSValue.vNum 42) rfl rfl rfl

/-- C1 counterexample: an object-hash entry with one key whose only
member fails validation makes `getMultipleComponents` return the empty
array (`some []`), not nothing (`none`) as the claim states. -/
theorem c1_counterexample :
    getMultipleComponents hostCheckNever
        [("MagdaPluginComponentExtraVisualisationSection",
          JSValue.vObj [("a", JSValue.vNum 1)])]
        "ExtraVisualisationSection" = some [] ∧
    getMultipleComponents hostCheckNever
        [("MagdaPluginComponentExtraVisualisationSection",
          JSValue.vObj [("a", JSValue.vNum 1)])]
        "ExtraVisualisationSection" ≠ none :=
  ⟨rfl, fun h => Option.noConfusion h⟩

/-- C1 (amended): for every multi-slot registry entry that is an object
hash with at least one own key, no truthy `default` member and not itself
a valid renderable, if every member candidate fails to materialise then
`getMultipleComponents` returns the empty array `some []` — a non-null
empty sequence, not the `none` an absent slot produces. -/
theorem c1_all_members_dropped (hc : JSValue → Bool) (w : Obj) (name : String)
    (fs : List (String × JSValue))
    (hw : windowGet w (PREFIX_STR ++ name) = JSValue.vObj fs)
    (hne : fs ≠ [])
    (hd : truthy (getField (JSValue.vObj fs) "default") = false)
    (hself : isValidElementType hc (JSValue.vObj fs) = false)
    (hall : ∀ p ∈ fs, getComponentByRef hc p.2 = none) :
    getMultipleComponents hc w name = some [] := by
  have hre : resolveEntry (JSValue.vObj fs) = JSValue.vObj fs := by
    unfold resolveEntry
    rw [hd]
    rfl
  have hnone : getComponentByRef hc (JSValue.vObj fs) = none :=
    getComponentByRef_none_of_invalid hc _ hd hself
  unfold getMultipleComponents
  rw [hw, hre, multiFromExported_objHash hc fs hnone hne]
  have hfm : (fs.map Prod.fst).filterMap (fun k =>
      (getComponentByRef hc (getField (JSValue.vObj fs) k)).map
        (fun c => (k, c))) = [] := by
    rw [List.filterMap_eq_nil_iff]
    intro k hk
    obtain ⟨v, hv⟩ := exists_lookupStr_of_mem_keys hk
    have hfld : getField (JSValue.vObj fs) k = v := by
      simp [getField, hv]
    rw [hfld, hall _ (lookupStr_mem hv)]
    rfl
  rw [hfm]
  rfl

/-- C1 (amended) witness: a two-member hash whose members both fail
validation yields the empty array. -/
theorem c1_all_members_dropped_witness :
    getMultipleComponents hostCheckNever
      [("MagdaPluginComponentExtraVisualisationSection",
        JSValue.vObj [("a", JSValue.vNum 1), ("b", JSValue.vNum 2)])]
      "ExtraVisualisationSection" = some [] :=
  c1_all_members_dropped hostCheckNever
    [("MagdaPluginComponentExtraVisualisationSection",
      JSValue.vObj [("a", JSValue.vNum 1), ("b", JSValue.vNum 2)])]
    "ExtraVisualisationSection"
    [("a", JSValue.vNum 1), ("b", JSValue.vNum 2)]
    rfl (by simp) rfl rfl
    (by
      intro p hp
      rcases List.mem_cons.mp hp with h0 | h0
      · rw [h0]
        rfl
      · rcases List.mem_cons.mp h0 with h1 | h1
        · rw [h1]
          rfl
        · exact absurd h1 (List.not_mem_nil p))

/-- C3: for a multi-slot object hash `{ a: Ca, b: Cb, c: Cc }` whose
members `Ca` and `Cc` are valid renderables (with no truthy `default` of
their own) while `Cb` fails to materialise, and whose hash is not itself
accepted by the host check, `getMultipleComponents` returns exactly the
two decorated survivors in key order, each wrapped with
`loadedPluginNames = ["a", "c"]`. -/
theorem c3_partial_group (hc : JSValue → Bool) (w : Obj) (name : String)
    (Ca Cb Cc : JSValue)
    (hw : windowGet w (PREFIX_STR ++ name) =
      JSValue.vObj [("a", Ca), ("b", Cb), ("c", Cc)])
    (hself : hc (JSValue.vObj [("a", Ca), ("b", Cb), ("c", Cc)]) = false)
    (hCa : isValidElementType hc Ca = true)
    (hCad : truthy (getField Ca "default") = false)
    (hCb : getComponentByRef hc Cb = none)
    (hCc : isValidElementType hc Cc = true)
    (hCcd : truthy (getField Cc "default") = false) :
    getMultipleComponents hc w name =
      some [wrapComponentWithProps (RComp.decorated Ca)
              [("loadedPluginNames",
                JSValue.vArr [JSValue.vStr "a", JSValue.vStr "c"])],
            wrapComponentWithProps (RComp.decorated Cc)
              [("loadedPluginNames",
                JSValue.vArr [JSValue.vStr "a", JSValue.vStr "c"])]] := by
  have hdef : truthy (getField (JSValue.vObj [("a", Ca), ("b", Cb), ("c", Cc)])
      "default") = false := rfl
  have hval : isValidElementType hc
      (JSValue.vObj [("a", Ca), ("b", Cb), ("c", Cc)]) = false := hself
  have hnone : getComponentByRef hc
      (JSValue.vObj [("a", Ca), ("b", Cb), ("c", Cc)]) = none :=
    getComponentByRef_none_of_invalid hc _ hdef hval
  have hre : resolveEntry (JSValue.vObj [("a", Ca), ("b", Cb), ("c", Cc)]) =
      JSValue.vObj [("a", Ca), ("b", Cb), ("c", Cc)] := rfl
  have ha : getComponentByRef hc
      (getField (JSValue.vObj [("a", Ca), ("b", Cb), ("c", Cc)]) "a") =
      some (RComp.decorated Ca) :=
    getComponentByRef_of_valid hc Ca hCa hCad
  have hb : getComponentByRef hc
      (getField (JSValue.vObj [("a", Ca), ("b", Cb), ("c", Cc)]) "b") =
      none := hCb
  have hcc : getComponentByRef hc
      (getField (JSValue.vObj [("a", Ca), ("b", Cb), ("c", Cc)]) "c") =
      some (RComp.decorated Cc) :=
    getComponentByRef_of_valid hc Cc hCc hCcd
  unfold getMultipleComponents
  rw [hw, hre, multiFromExported_objHash hc _ hnone (by simp)]
  simp only [List.map_cons, List.map_nil, List.filterMap_cons, ha, hb, hcc,
    Option.map_some, Option.map_none, List.filterMap_nil]
  rfl

/-- C3 witness: concrete components at keys `a` and `c` with an invalid
number at `b`. -/
theorem c3_partial_group_witness :
    getMultipleComponents hostCheckComp
      [("MagdaPluginComponentExtraVisualisationSection",
        JSValue.vObj [("a", JSValue.vComp 0), ("b", JSValue.vNum 1),
          ("c", JSValue.vComp 2)])]
      "ExtraVisualisationSection" =
      some [wrapComponentWithProps (RComp.decorated (JSValue.vComp 0))
              [("loadedPluginNames",
                JSValue.vArr [JSValue.vStr "a", JSValue.vStr "c"])],
            wrapComponentWithProps (RComp.decorated (JSValue.vComp 2))
              [("loadedPluginNames",
                JSValue.vArr [JSValue.vStr "a", JSValue.vStr "c"])]] :=
  c3_partial_group hostCheckComp
    [("MagdaPluginComponentExtraVisualisationSection",
      JSValue.vObj [("a", JSValue.vComp 0), ("b", JSValue.vNum 1),
        ("c", JSValue.vComp 2)])]
    "ExtraVisualisationSection" (JSValue.vComp 0) (JSValue.vNum 1)
    (JSValue.vComp 2) rfl rfl rfl rfl rfl rfl rfl

/-- C2 counterexample: a registry entry that is itself a valid renderable
(accepted by the host check) but carries a truthy, invalid `default`
property resolves to nothing — not to the entry itself as the claim
states — because `getComponent` unwraps the truthy `default` before any
validation. -/
theorem c2_counterexample :
    isValidElementType hostCheckObj
        (JSValue.vObj [("default", JSValue.vNum 5), ("x", JSValue.vNum 1)]) =
      true ∧
    truthy (getField
        (JSValue.vObj [("default", JSValue.vNum 5), ("x", JSValue.vNum 1)])
        "default") = true ∧
    isValidElementType hostCheckObj (getField
        (JSValue.vObj [("default", JSValue.vNum 5), ("x", JSValue.vNum 1)])
        "default") = false ∧
    getComponent hostCheckObj
        [("MagdaPluginComponentHeader",
          JSValue.vObj [("default", JSValue.vNum 5), ("x", JSValue.vNum 1)])]
        "Header" = none ∧
    getComponent hostCheckObj
        [("MagdaPluginComponentHeader",
          JSValue.vObj [("default", JSValue.vNum 5), ("x", JSValue.vNum 1)])]
        "Header" ≠
      some (RComp.decorated
        (JSValue.vObj [("default", JSValue.vNum 5), ("x", JSValue.vNum 1)])) :=
  ⟨rfl, rfl, rfl, rfl, fun h => Option.noConfusion h⟩

/-- C2 (amended): `getComponent` unwraps a truthy `default` at the
registry entry before any validation, and `getComponentByRef` then
applies the decision order (valid `default` → unwrap; else valid value →
itself; else nothing) to the unwrapped value. Consequently an entry that
is itself a valid renderable but carries a truthy, invalid `default`
resolves to nothing (when that invalid default does not itself expose a
valid nested `default`), not to the entry itself. -/
theorem c2_truthy_invalid_default (hc : JSValue → Bool) (w : Obj)
    (name : String) (e : JSValue)
    (hw : windowGet w (PREFIX_STR ++ name) = e)
    (_hvalid : isValidElementType hc e = true)
    (hdt : truthy (getField e "default") = true)
    (hdi : isValidElementType hc (getField e "default") = false)
    (hdd : isValidElementType hc
      (getField (getField e "default") "default") = false) :
    getComponent hc w name = none := by
  have hre : resolveEntry e = getField e "default" := by
    unfold resolveEntry
    rw [hdt]
    rfl
  unfold getComponent
  rw [hw, hre, getComponentByRef_eq, hdd, hdi]
  simp

/-- C2 (amended) witness: a valid object entry with a truthy invalid
default at the `Footer` slot resolves to nothing. -/
theorem c2_truthy_invalid_default_witness :
    getComponent hostCheckObj
      [("MagdaPluginComponentFooter",
        JSValue.vObj [("default", JSValue.vNum 7), ("y", JSValue.vNum 2)])]
      "Footer" = none :=
  c2_truthy_invalid_default hostCheckObj
    [("MagdaPluginComponentFooter",
      JSValue.vObj [("default", JSValue.vNum 7), ("y", JSValue.vNum 2)])]
    "Footer" (JSValue.vObj [("default", JSValue.vNum 7), ("y", JSValue.vNum 2)])
    rfl rfl rfl rfl rfl

/-- C8 counterexample: for the valid renderable
`C = { default: 5 }` (an object accepted by the host check whose own
`default` field is truthy but invalid), registering `{ default: C }`
resolves to the decorated `C` while registering `C` directly resolves to
nothing — the two are not equivalent, against the claim. -/
theorem c8_counterexample :
    isValidElementType hostCheckObj
        (JSValue.vObj [("default", JSValue.vNum 5)]) = true ∧
    getComponent hostCheckObj
        [("MagdaPluginComponentHeader",
          JSValue.vObj [("default",
            JSValue.vObj [("default", JSValue.vNum 5)])])]
        "Header" =
      some (RComp.decorated (JSValue.vObj [("default", JSValue.vNum 5)])) ∧
    getComponent hostCheckObj
        [("MagdaPluginComponentHeader",
          JSValue.vObj [("default", JSValue.vNum 5)])]
        "Header" = none ∧
    getComponent hostCheckObj
        [("MagdaPluginComponentHeader",
          JSValue.vObj [("default",
            JSValue.vObj [("default", JSValue.vNum 5)])])]
        "Header" ≠
      getComponent hostCheckObj
        [("MagdaPluginComponentHeader",
          JSValue.vObj [("default", JSValue.vNum 5)])]
        "Header" :=
  ⟨rfl, rfl, rfl, fun h => Option.noConfusion h⟩

/-- C8 (amended): for every valid renderable `C` whose own `default`
property is not truthy, registering `{ default: C }` at a slot resolves
exactly as registering `C` directly, for both the single-slot and the
multi-slot resolver. -/
theorem c8_default_unwrap_transparency (hc : JSValue → Bool) (name : String)
    (C : JSValue)
    (hvalid : isValidElementType hc C = true)
    (hd : truthy (getField C "default") = false) :
    getComponent hc [(PREFIX_STR ++ name, JSValue.vObj [("default", C)])]
        name =
      getComponent hc [(PREFIX_STR ++ name, C)] name ∧
    getMultipleComponents hc
        [(PREFIX_STR ++ name, JSValue.vObj [("default", C)])] name =
      getMultipleComponents hc [(PREFIX_STR ++ name, C)] name := by
  have ht : truthy C = true := truthy_of_isValid hvalid
  have hwg : ∀ v : JSValue,
      windowGet [(PREFIX_STR ++ name, v)] (PREFIX_STR ++ name) = v := by
    intro v
    unfold windowGet
    rw [lookupStr, if_pos rfl]
    rfl
  have hre1 : resolveEntry (JSValue.vObj [("default", C)]) = C := by
    unfold resolveEntry
    have hfld : getField (JSValue.vObj [("default", C)]) "default" = C := rfl
    rw [hfld, ht]
    rfl
  have hre2 : resolveEntry C = C := by
    unfold resolveEntry
    rw [hd, ht]
    rfl
  constructor
  · unfold getComponent
    rw [hwg, hwg, hre1, hre2]
  · unfold getMultipleComponents
    rw [hwg, hwg, hre1, hre2]

/-- C8 (amended) witness: for a plain function component the two
registrations resolve identically on both paths. -/
theorem c8_default_unwrap_transparency_witness :
    getComponent hostCheckComp
        [("MagdaPluginComponent" ++ "DatasetEditButton",
          JSValue.vObj [("default", JSValue.vComp 3)])]
        "DatasetEditButton" =
      getComponent hostCheckComp
        [("MagdaPluginComponent" ++ "DatasetEditButton",
          JSValue.vComp 3)] "DatasetEditButton" ∧
    getMultipleComponents hostCheckComp
        [("MagdaPluginComponent" ++ "DatasetEditButton",
          JSValue.vObj [("default", JSValue.vComp 3)])]
        "DatasetEditButton" =
      getMultipleComponents hostCheckComp
        [("MagdaPluginComponent" ++ "DatasetEditButton",
          JSValue.vComp 3)] "DatasetEditButton" :=
  c8_default_unwrap_transparency hostCheckComp "DatasetEditButton"
    (JSValue.vComp 3) rfl rfl

/-- C10 counterexample: for the candidate hash
`H = { default: 5, x: Comp }` (whose `default` member is truthy but
invalid), registering `{ default: H }` resolves to the one-member group
`["x"]` while registering `H` directly resolves to nothing — the
truthy-`default` unwrap applies a second time to `H` itself, so the two
registrations are not equivalent, against the claim. -/
theorem c10_counterexample :
    getMultipleComponents hostCheckComp
        [("MagdaPluginComponentExtraVisualisationSection",
          JSValue.vObj [("default",
            JSValue.vObj [("default", JSValue.vNum 5),
              ("x", JSValue.vComp 1)])])]
        "ExtraVisualisationSection" =
      some [wrapComponentWithProps (RComp.decorated (JSValue.vComp 1))
              [("loadedPluginNames", JSValue.vArr [JSValue.vStr "x"])]] ∧
    getMultipleComponents hostCheckComp
        [("MagdaPluginComponentExtraVisualisationSection",
          JSValue.vObj [("default", JSValue.vNum 5),
            ("x", JSValue.vComp 1)])]
        "ExtraVisualisationSection" = none ∧
    getMultipleComponents hostCheckComp
        [("MagdaPluginComponentExtraVisualisationSection",
          JSValue.vObj [("default",
            JSValue.vObj [("default", JSValue.vNum 5),
              ("x", JSValue.vComp 1)])])]
        "ExtraVisualisationSection" ≠
      getMultipleComponents hostCheckComp
        [("MagdaPluginComponentExtraVisualisationSection",
          JSValue.vObj [("default", JSValue.vNum 5),
            ("x", JSValue.vComp 1)])]
        "ExtraVisualisationSection" :=
  ⟨rfl, rfl, fun h => Option.noConfusion h⟩

/-- C10 (amended): for every truthy registry value `H` with no truthy
`default` member — in particular every candidate hash without a truthy
`default` key — registering `{ default: H }` at a multi-slot scope
resolves exactly as registering `H` directly: the container-level
truthy-`default` unwrap happens before the single-candidate/object-hash
branching, and on `H` itself the unwrap is then a no-op. -/
theorem c10_container_default_unwrap (hc : JSValue → Bool) (name : String)
    (H : JSValue)
    (ht : truthy H = true)
    (hd : truthy (getField H "default") = false) :
    getMultipleComponents hc
        [(PREFIX_STR ++ name, JSValue.vObj [("default", H)])] name =
      getMultipleComponents hc [(PREFIX_STR ++ name, H)] name := by
  have hwg : ∀ v : JSValue,
      windowGet [(PREFIX_STR ++ name, v)] (PREFIX_STR ++ name) = v := by
    intro v
    unfold windowGet
    rw [lookupStr, if_pos rfl]
    rfl
  have hre1 : resolveEntry (JSValue.vObj [("default", H)]) = H := by
    unfold resolveEntry
    have hfld : getField (JSValue.vObj [("default", H)]) "default" = H := rfl
    rw [hfld, ht]
    rfl
  have hre2 : resolveEntry H = H := by
    unfold resolveEntry
    rw [hd, ht]
    rfl
  unfold getMultipleComponents
  rw [hwg, hwg, hre1, hre2]

/-- C10 (amended) witness: a one-member hash without a `default` key
resolves identically under the two registrations. -/
theorem c10_container_default_unwrap_witness :
    getMultipleComponents hostCheckComp
        [("MagdaPluginComponent" ++ "ExtraVisualisationSection",
          JSValue.vObj [("default",
            JSValue.vObj [("x", JSValue.vComp 1)])])]
        "ExtraVisualisationSection" =
      getMultipleComponents hostCheckComp
        [("MagdaPluginComponent" ++ "ExtraVisualisationSection",
          JSValue.vObj [("x", JSValue.vComp 1)])]
        "ExtraVisualisationSection" :=
  c10_container_default_unwrap hostCheckComp "ExtraVisualisationSection"
    (JSValue.vObj [("x", JSValue.vComp 1)]) rfl rfl

/-- On key collision the right (overwrite) object wins in
`{...a, ...b}`. -/
lemma lookupStr_spreadMerge_hit {k : String} {v : JSValue} (a : Obj)
    {b : Obj} (h : lookupStr k b = some v) :
    lookupStr k (spreadMerge a b) = some v := by
  unfold spreadMerge
  cases hla : lookupStr k a with
  | some w =>
    apply lookupStr_append_some
    rw [lookupStr_mapOverride, hla, h]
    rfl
  | none =>
    have hmap : lookupStr k
        (a.map (fun p => (p.1, (lookupStr p.1 b).getD p.2))) = none := by
      rw [lookupStr_mapOverride, hla]
      rfl
    rw [lookupStr_append_none _ hmap]
    have hany := any_key_false_of_lookupStr_none hla
    have hf : ∀ u : JSValue,
        (fun p : String × JSValue => !(a.any (fun q => q.1 = p.1))) (k, u) =
          true := by
      intro u
      simp [hany]
    rw [lookupStr_filter_of_true _ hf]
    exact h

/-- A key absent from the overwrite object keeps its left value in
`{...a, ...b}`. -/
lemma lookupStr_spreadMerge_miss {k : String} (a : Obj) {b : Obj}
    (h : lookupStr k b = none) :
    lookupStr k (spreadMerge a b) = lookupStr k a := by
  unfold spreadMerge
  cases hla : lookupStr k a with
  | some w =>
    apply lookupStr_append_some
    rw [lookupStr_mapOverride, hla, h]
    rfl
  | none =>
    have hmap : lookupStr k
        (a.map (fun p => (p.1, (lookupStr p.1 b).getD p.2))) = none := by
      rw [lookupStr_mapOverride, hla]
      rfl
    rw [lookupStr_append_none _ hmap]
    exact lookupStr_filter_none _ h

lemma lookupStr_removeKey_ne {k kk : String} (props : Obj) (h : ¬ k = kk) :
    lookupStr k (removeKey props kk) = lookupStr k props :=
  lookupStr_filter_of_true _ (fun u => by simp [h]) props

lemma lookupStr_removeKey_self (k : String) (props : Obj) :
    lookupStr k (removeKey props k) = none :=
  lookupStr_filter_of_false _ (fun u => by simp) props

/-- C6: the wrapper produced by `wrapComponentWithProps` renders the
underlying component; `children` among the caller props are passed
positionally and removed from the merged props; on key collision the
extra (overwrite) props always win; keys not owned by the extra props
keep their caller value. -/
theorem c6_wrapper_merge (component : RComp) (extra props : Obj) :
    (renderRComp (wrapComponentWithProps component extra) props).comp =
      component ∧
    (renderRComp (wrapComponentWithProps component extra) props).children =
      (lookupStr "children" props).getD JSValue.vNull ∧
    (∀ k v, lookupStr k extra = some v →
      lookupStr k (renderRComp (wrapComponentWithProps component extra)
        props).props = some v) ∧
    (∀ k, lookupStr k extra = none → ¬ k = "children" →
      lookupStr k (renderRComp (wrapComponentWithProps component extra)
        props).props = lookupStr k props) ∧
    (lookupStr "children" extra = none →
      lookupStr "children" (renderRComp (wrapComponentWithProps component
        extra) props).props = none) := by
  have hprops : (renderRComp (wrapComponentWithProps component extra)
      props).props = spreadMerge (removeKey props "children") extra := rfl
  refine ⟨rfl, rfl, ?_, ?_, ?_⟩
  · intro k v h
    rw [hprops]
    exact lookupStr_spreadMerge_hit _ h
  · intro k h hk
    rw [hprops, lookupStr_spreadMerge_miss _ h]
    exact lookupStr_removeKey_ne props hk
  · intro h
    rw [hprops, lookupStr_spreadMerge_miss _ h]
    exact lookupStr_removeKey_self _ props

/-- C6 witness: a host-owned `user` prop shadows the caller's, the
caller's `x` prop survives, and the caller's `children` are passed
positionally and dropped from the merged props. -/
theorem c6_wrapper_merge_witness :
    lookupStr "user" (renderRComp (wrapComponentWithProps
        (RComp.decorated (JSValue.vComp 0)) [("user", JSValue.vStr "host")])
        [("user", JSValue.vStr "caller"), ("children", JSValue.vStr "kid"),
          ("x", JSValue.vNum 7)]).props = some (JSValue.vStr "host") ∧
    lookupStr "x" (renderRComp (wrapComponentWithProps
        (RComp.decorated (JSValue.vComp 0)) [("user", JSValue.vStr "host")])
        [("user", JSValue.vStr "caller"), ("children", JSValue.vStr "kid"),
          ("x", JSValue.vNum 7)]).props =
      lookupStr "x" [("user", JSValue.vStr "caller"),
        ("children", JSValue.vStr "kid"), ("x", JSValue.vNum 7)] ∧
    (renderRComp (wrapComponentWithProps
        (RComp.decorated (JSValue.vComp 0)) [("user", JSValue.vStr "host")])
        [("user", JSValue.vStr "caller"), ("children", JSValue.vStr "kid"),
          ("x", JSValue.vNum 7)]).children = JSValue.vStr "kid" ∧
    lookupStr "children" (renderRComp (wrapComponentWithProps
        (RComp.decorated (JSValue.vComp 0)) [("user", JSValue.vStr "host")])
        [("user", JSValue.vStr "caller"), ("children", JSValue.vStr "kid"),
          ("x", JSValue.vNum 7)]).props = none :=
  ⟨(c6_wrapper_merge (RComp.decorated (JSValue.vComp 0))
      [("user", JSValue.vStr "host")]
      [("user", JSValue.vStr "caller"), ("children", JSValue.vStr "kid"),
        ("x", JSValue.vNum 7)]).2.2.1 "user" (JSValue.vStr "host") rfl,
   (c6_wrapper_merge (RComp.decorated (JSValue.vComp 0))
      [("user", JSValue.vStr "host")]
      [("user", JSValue.vStr "caller"), ("children", JSValue.vStr "kid"),
        ("x", JSValue.vNum 7)]).2.2.2.1 "x" rfl (by decide),
   (c6_wrapper_merge (RComp.decorated (JSValue.vComp 0))
      [("user", JSValue.vStr "host")]
      [("user", JSValue.vStr "caller"), ("children", JSValue.vStr "kid"),
        ("x", JSValue.vNum 7)]).2.1,
   (c6_wrapper_merge (RComp.decorated (JSValue.vComp 0))
      [("user", JSValue.vStr "host")]
      [("user", JSValue.vStr "caller"), ("children", JSValue.vStr "kid"),
        ("x", JSValue.vNum 7)]).2.2.2.2 rfl⟩
